import Mathlib

/-!
Shallow embedding of the browser location-caching layer
(`src/lib/utils/indexedDB.js`, `src/lib/utils/locationUtils.js`):
a Location Store over IndexedDB with a localStorage fallback, and a
Location Resolver (`getLocation` / `getLocationWithFallback`) that decides
between the stored value, a live device fix, and a static fallback.

JavaScript finite float64 values are modelled by rationals; `NaN` is
modelled explicitly.  Asynchronous code is modelled by explicit state
passing: each operation takes the storage state and the host environment
(which backends work, what the device-fix source answers) and returns an
`Except` result together with the successor state.  The rejection of a
promise is `Except.error`; a resolved promise is `Except.ok`.
-/

namespace MapLocation

/-- A pair of finite JS numbers, as produced by the numeric coercions in the
source (`+lat`, `parseFloat`). -/
structure Coord where
  lat : ℚ
  lng : ℚ
deriving DecidableEq, Repr

/-- A JavaScript value that can sit in the `lat`/`lng` field of a location
object.  A string carries the number it coerces to under JS unary plus
(`none` when the coercion is `NaN`) and whether it is non-empty (JS
truthiness of a string is non-emptiness, not its numeric value). -/
inductive JSVal where
  | num (x : ℚ)
  | nan
  | str (coerce : Option ℚ) (nonEmpty : Bool)
  | null
  | undefined
deriving DecidableEq, Repr

/-- JS unary plus / `Number()` coercion; `none` is `NaN`. -/
def jsPlus : JSVal → Option ℚ
  | .num x => some x
  | .nan => none
  | .str c _ => c
  | .null => some 0
  | .undefined => none

/-- JS loose equality to `null` (`x == null`), true exactly for `null` and
`undefined`. -/
def looseNull : JSVal → Bool
  | .null => true
  | .undefined => true
  | _ => false

/-- JS truthiness of a field value. -/
def truthyVal : JSVal → Bool
  | .num x => x != 0
  | .nan => false
  | .str _ ne => ne
  | .null => false
  | .undefined => false

/-- A JavaScript value passed as a whole `location` argument: `null`,
`undefined`, a (truthy) non-object primitive, or an object with `lat` and
`lng` fields (a missing field reads as `undefined`). -/
inductive JSLoc where
  | null
  | undefined
  | nonObject
  | obj (lat lng : JSVal)
deriving DecidableEq, Repr

/-- The location object built from a numeric coordinate pair. -/
def coordLoc (c : Coord) : JSLoc := .obj (.num c.lat) (.num c.lng)

/-- Content of the localStorage key `'user-location'`: JSON text that parses
back to a location value, or malformed text on which `JSON.parse` throws. -/
inductive LSContent where
  | json (l : JSLoc)
  | malformed
deriving DecidableEq, Repr

/-- Persistent storage state: the record under key `'current'` in the
`'userLocation'` object store of `MapLocationDB` (the saved values are
numbers after the `+` coercion), and the localStorage cell. -/
structure StoreState where
  idb : Option Coord
  ls : Option LSContent
deriving DecidableEq, Repr

/-- Error code delivered to the geolocation error callback. -/
inductive GeoErrorCode where
  | permissionDenied
  | positionUnavailable
  | timeout
  | other
deriving DecidableEq, Repr

/-- The single outcome of one `navigator.geolocation.getCurrentPosition`
request: the platform invokes exactly one of the success or error
callbacks (a timeout surfaces as the `timeout` error code). -/
inductive GeoOutcome where
  | success (lat lng : ℚ)
  | failure (code : GeoErrorCode)
deriving DecidableEq, Repr

/-- Host-environment fault model: which storage operations succeed, whether
geolocation exists, and what the device-fix source answers. -/
structure Env where
  indexedDBSupported : Bool
  openFails : Bool
  txFails : Bool
  putRequestFails : Bool
  readRequestFails : Bool
  localStorageFails : Bool
  geolocationSupported : Bool
  fix : GeoOutcome
deriving DecidableEq, Repr

/-- The primary engine path works end to end for both writes and reads. -/
def envPrimaryOk (env : Env) : Prop :=
  env.indexedDBSupported = true ∧ env.openFails = false ∧
    env.txFails = false ∧ env.putRequestFails = false ∧
    env.readRequestFails = false

/-- Condition under which `getDB()` rejects: the primary engine is absent or opening it errors. -/
def envPrimaryDown (env : Env) : Prop :=
  env.indexedDBSupported = false ∨ env.openFails = true

/-- How a `saveUserLocation` promise can reject.  The transaction/request
rejections escape the function because the `try` block returns the inner
promise without awaiting it, so its rejection is not routed through the
`catch`; `localStorageFailed` is `localStorage.setItem` throwing inside the
`catch` block. -/
inductive SaveError where
  | transactionFailed
  | transactionAborted
  | putRequestFailed
  | localStorageFailed
deriving DecidableEq, Repr

/-- How a `getUserLocation` promise can reject: only `JSON.parse` throwing
on malformed localStorage content inside the `catch` block. -/
inductive GetError where
  | jsonParseFailed
deriving DecidableEq, Repr

/-- Embedding of `saveUserLocation` from `src/unnamed/part_005` (the variant with the
bounds check).  The `catch` block writes the raw `location` argument as
JSON to localStorage; it intercepts the validation throws and a `getDB`
rejection, but not a rejection of the returned transaction promise. -/
def saveUserLocation (env : Env) (st : StoreState) (location : JSLoc) :
    Except SaveError Unit × StoreState :=
  -- the catch block: console.error, then localStorage.setItem('user-location', JSON.stringify(location))
  let lsFallback : Except SaveError Unit × StoreState :=
    if env.localStorageFails then (.error .localStorageFailed, st)
    else (.ok (), { st with ls := some (.json location) })
  match location with
  | .null => lsFallback          -- `!location` throws 'Location object is required'
  | .undefined => lsFallback
  | .nonObject => lsFallback     -- destructured lat/lng are undefined, `lat == null` throws
  | .obj lat lng =>
    if looseNull lat || looseNull lng then lsFallback
    else
      match jsPlus lat, jsPlus lng with
      | some la, some ln =>
        if 90 < |la| ∨ 180 < |ln| then lsFallback  -- 'Coordinates out of valid range', caught
        else if ¬env.indexedDBSupported ∨ env.openFails then lsFallback  -- await getDB() throws, caught
        else if env.txFails then (.error .transactionFailed, st)
        else if env.putRequestFails then (.error .putRequestFailed, st)
        else (.ok (), { st with idb := some ⟨la, ln⟩ })
      | _, _ => lsFallback       -- NaN check throws, caught

/-- Embedding of `saveUserLocation` from `src/src/lib/utils/indexedDB.js`: identical to
the `part_005` variant except that it has no bounds check, so out-of-range
numeric coordinates pass validation and are written to IndexedDB. -/
def saveUserLocationIDB (env : Env) (st : StoreState) (location : JSLoc) :
    Except SaveError Unit × StoreState :=
  let lsFallback : Except SaveError Unit × StoreState :=
    if env.localStorageFails then (.error .localStorageFailed, st)
    else (.ok (), { st with ls := some (.json location) })
  match location with
  | .null => lsFallback
  | .undefined => lsFallback
  | .nonObject => lsFallback
  | .obj lat lng =>
    if looseNull lat || looseNull lng then lsFallback
    else
      match jsPlus lat, jsPlus lng with
      | some la, some ln =>
        if ¬env.indexedDBSupported ∨ env.openFails then lsFallback
        else if env.txFails then (.error .transactionFailed, st)
        else if env.putRequestFails then (.error .putRequestFailed, st)
        else (.ok (), { st with idb := some ⟨la, ln⟩ })
      | _, _ => lsFallback

/-- Embedding of `getUserLocation` from `src/unnamed/part_005` (same code in
`src/src/lib/utils/indexedDB.js`).  The IndexedDB read request's `onerror`
handler resolves `null` directly; only a `getDB` rejection reaches the
`catch` block and its localStorage fallback, where `JSON.parse` of
malformed content throws out of the function. -/
def getUserLocation (env : Env) (st : StoreState) :
    Except GetError (Option JSLoc) :=
  if ¬env.indexedDBSupported ∨ env.openFails then
    -- catch: const stored = localStorage.getItem('user-location'); return stored ? JSON.parse(stored) : null
    match st.ls with
    | none => .ok none
    | some (.json l) => .ok (some l)
    | some .malformed => .error .jsonParseFailed
  else if env.readRequestFails then .ok none  -- request.onerror = () => resolve(null)
  else
    match st.idb with
    | some c => .ok (some (coordLoc c))  -- parseFloat of a stored number is that number
    | none => .ok none

/-- The kind of failure the Resolver surfaces (the source rejects with
`Error` values whose messages distinguish exactly these cases). -/
inductive LocKind where
  | permissionDenied
  | positionUnavailable
  | timeout
  | unsupported
  | unknown
deriving DecidableEq, Repr

/-- The switch on `error.code` in the geolocation error callbacks: the three
platform codes map to their own message, anything else to the unknown
message. -/
def kindOfCode : GeoErrorCode → LocKind
  | .permissionDenied => .permissionDenied
  | .positionUnavailable => .positionUnavailable
  | .timeout => .timeout
  | .other => .unknown

/-- A rejection escaping the Resolver: a location error with its kind, or
the original storage error re-thrown by the top-level `catch` when
`throwOnError` is set. -/
inductive LocFailure where
  | locationError (kind : LocKind)
  | rethrown (e : GetError)
deriving DecidableEq, Repr

/-- The recognized options of `getLocation` / `getLocationWithFallback`,
with the source's defaults (Cairo fallback). -/
structure ResolveOptions where
  forceFresh : Bool := false
  fallback : Coord := ⟨30033/1000, 31233/1000⟩
  timeout : ℕ := 5000
  throwOnError : Bool := false
deriving DecidableEq, Repr

/-- Embedding of `getLocation` from `src/unnamed/part_005` (same structure in
`src/unnamed/part_004`).  Strategy 1 consults the store unless
`forceFresh`; strategy 2 performs one device-fix attempt, on success firing
a non-awaited `saveUserLocation` whose outcome does not affect the result
(the eventual effect of that save is folded into the successor state);
failures resolve to `fallback` or reject according to `throwOnError`. -/
def getLocation (env : Env) (st : StoreState) (opts : ResolveOptions) :
    Except LocFailure JSLoc × StoreState :=
  let gps : Except LocFailure JSLoc × StoreState :=
    if ¬env.geolocationSupported then
      (if opts.throwOnError then .error (.locationError .unsupported)
       else .ok (coordLoc opts.fallback), st)
    else
      match env.fix with
      | .success la ln =>
        -- AUTO-SAVE: saveUserLocation(location).catch(...) — fire-and-forget
        (.ok (coordLoc ⟨la, ln⟩), (saveUserLocation env st (coordLoc ⟨la, ln⟩)).2)
      | .failure code =>
        (if opts.throwOnError then .error (.locationError (kindOfCode code))
         else .ok (coordLoc opts.fallback), st)
  if ¬opts.forceFresh then
    match getUserLocation env st with
    | .ok (some saved) => (.ok saved, st)  -- SAVED LOCATION FOUND: return immediately
    | .ok none => gps
    | .error e =>
      -- await getUserLocation() rejecting is caught by the top-level catch
      (if opts.throwOnError then .error (.rethrown e)
       else .ok (coordLoc opts.fallback), st)
  else gps

/-- Embedding of `getCurrentLocationGPS` from `src/src/lib/utils/locationUtils.js`: one
device-fix attempt, rejecting with a kind-specific message on failure or
missing capability; it performs no persistence. -/
def getCurrentLocationGPS (env : Env) : Except LocFailure Coord :=
  if ¬env.geolocationSupported then .error (.locationError .unsupported)
  else
    match env.fix with
    | .success la ln => .ok ⟨la, ln⟩
    | .failure code => .error (.locationError (kindOfCode code))

/-- The `saved && saved.lat && saved.lng` validity check in
`getLocationWithFallback`: JS truthiness of the object and of both
coordinate fields. -/
def savedOk : JSLoc → Bool
  | .obj lat lng => truthyVal lat && truthyVal lng
  | .null => false
  | .undefined => false
  | .nonObject => false  -- `saved.lat` of a primitive is undefined, hence falsy

/-- Embedding of `getLocationWithFallback` from `src/src/lib/utils/locationUtils.js`.
`getL` is the injected saved-location getter (the call sites pass
`getLocation`); it is invoked with `forceFresh:false, throwOnError:false`.
The GPS result, when reached, is returned as a plain `{lat, lng}` object
with no write-back to the store. -/
def getLocationWithFallback (env : Env) (st : StoreState)
    (getL : ResolveOptions → Except LocFailure JSLoc × StoreState)
    (opts : ResolveOptions) : Except LocFailure JSLoc × StoreState :=
  let step2 (st₁ : StoreState) : Except LocFailure JSLoc × StoreState :=
    match getCurrentLocationGPS env with
    | .ok c => (.ok (coordLoc c), st₁)
    | .error e =>
      (if opts.throwOnError then .error e else .ok (coordLoc opts.fallback), st₁)
  if ¬opts.forceFresh then
    match getL { forceFresh := false, fallback := opts.fallback,
                 throwOnError := false, timeout := opts.timeout } with
    | (.ok saved, st₁) => if savedOk saved then (.ok saved, st₁) else step2 st₁
    | (.error e, st₁) =>
      (if opts.throwOnError then .error e else .ok (coordLoc opts.fallback), st₁)
  else step2 st

/-- State of the module-level `getDB` machinery of
`src/unnamed/part_005` / `indexedDB.js`: the cached `dbInstance` (the id of
the connection that succeeded) and how many `indexedDB.open` requests have
been started. -/
structure DBConnState where
  dbInstance : Option ℕ
  opensStarted : ℕ
deriving DecidableEq, Repr

/-- Events of the open protocol: a `getDB()` call arriving, or the oldest
in-flight open request firing `onsuccess` (which caches the connection). -/
inductive DBEvent where
  | call
  | openCompletes
deriving DecidableEq, Repr

/-- One event step of `getDB`: a call returns the cached instance if
present and otherwise starts its own `indexedDB.open` (the source guards
only on `dbInstance`, which is assigned in `onsuccess`; there is no
in-flight promise to join). -/
def getDBStep (s : DBConnState) : DBEvent → DBConnState
  | .call =>
    if s.dbInstance.isSome then s
    else { s with opensStarted := s.opensStarted + 1 }
  | .openCompletes => { s with dbInstance := some s.opensStarted }

/-- Run a sequence of events from a state. -/
def runGetDB (s : DBConnState) (evts : List DBEvent) : DBConnState :=
  evts.foldl getDBStep s

/-- The initial module state: `let dbInstance = null`, no opens started. -/
def initDBConn : DBConnState := ⟨none, 0⟩

/-- An environment where every storage backend works and geolocation is
present; the device-fix outcome is the parameter. -/
def envWith (fix : GeoOutcome) : Env :=
  { indexedDBSupported := true, openFails := false, txFails := false,
    putRequestFails := false, readRequestFails := false,
    localStorageFails := false, geolocationSupported := true, fix := fix }

/-- The empty persistent state: no IndexedDB record, no localStorage cell. -/
def stEmpty : StoreState := ⟨none, none⟩

deriving instance DecidableEq for Except

/-- Left-pad a digit string with zeros to width `p` (the fractional digits
of `toFixed`). -/
def padZeros (s : String) (p : ℕ) : String :=
  String.mk (List.replicate (p - s.length) '0') ++ s

/-- JS `Number.prototype.toFixed` on the rational model, following the
ECMAScript algorithm: an explicit minus sign for negative inputs, then the
magnitude scaled by `10 ^ p` and rounded to the nearest integer (ties to
the larger), printed with exactly `p` decimal places. -/
def toFixed (x : ℚ) (p : ℕ) : String :=
  let sign := if x < 0 then "-" else ""
  let m : ℕ := (⌊|x| * (10 : ℚ) ^ p + 1/2⌋).toNat
  if p = 0 then sign ++ toString m
  else sign ++ toString (m / 10 ^ p) ++ "." ++ padZeros (toString (m % 10 ^ p)) p

/-- Embedding of `isValidLocation` from `src/src/lib/utils/locationUtils.js`: requires
an object, non-nullish `lat`/`lng` fields, non-NaN numeric coercions, and
coordinates within Earth's bounds. -/
def isValidLocation (location : JSLoc) : Bool :=
  match location with
  | .null => false        -- !location
  | .undefined => false   -- !location
  | .nonObject => false   -- typeof location !== 'object'
  | .obj lat lng =>
    if looseNull lat || looseNull lng then false
    else
      match jsPlus lat, jsPlus lng with
      | some numLat, some numLng =>
        if numLat < -90 ∨ 90 < numLat ∨ numLng < -180 ∨ 180 < numLng then false
        else true
      | _, _ => false     -- isNaN(numLat) || isNaN(numLng)

/-- Embedding of `formatLocation` from `src/src/lib/utils/locationUtils.js`:
`'Invalid location'` unless `isValidLocation` holds, otherwise the coerced
coordinates rendered by `toFixed`.  The inner matches embed the coercions
`+location.lat` / `+location.lng`; the guard guarantees they succeed. -/
def formatLocation (location : JSLoc) (precision : ℕ) : String :=
  if ¬isValidLocation location then "Invalid location"
  else
    match location with
    | .obj lat lng =>
      match jsPlus lat, jsPlus lng with
      | some la, some ln =>
        "Lat: " ++ toFixed la precision ++ ", Lng: " ++ toFixed ln precision
      | _, _ => "Invalid location"
    | _ => "Invalid location"

/-- C1: the claim asserts that `saveUserLocation` fails with
`InvalidCoordinate` on an out-of-range coordinate and persists nothing.
The code instead catches its own validation throw, writes the raw invalid
location to the localStorage fallback, and resolves successfully; the
`indexedDB.js` variant has no range check at all and persists the
out-of-range pair straight into IndexedDB.  Evaluated at
`{lat: 100, lng: 0}` with all backends operational. -/
theorem saveUserLocation_persists_invalid :
    (saveUserLocation (envWith (.failure .other)) stEmpty (.obj (.num 100) (.num 0))).1
        = .ok () ∧
    (saveUserLocation (envWith (.failure .other)) stEmpty (.obj (.num 100) (.num 0))).2.ls
        = some (.json (.obj (.num 100) (.num 0))) ∧
    (saveUserLocationIDB (envWith (.failure .other)) stEmpty (.obj (.num 100) (.num 0))).2.idb
        = some ⟨100, 0⟩ := by
  refine ⟨by decide, by decide, by decide⟩

/-- C8: the claim asserts that a primary-transaction failure still triggers
the localStorage fallback before any failure is signalled.  In the code the
`try` block returns the transaction promise without awaiting it, so its
rejection bypasses the `catch`: with a valid coordinate, a working
localStorage, and a write transaction that errors, `saveUserLocation`
rejects with the transaction error and leaves localStorage untouched. -/
theorem saveUserLocation_txFailure_skips_fallback :
    (saveUserLocation
        { envWith (.failure .other) with txFails := true } stEmpty (coordLoc ⟨30, 31⟩)).1
      = .error .transactionFailed ∧
    (saveUserLocation
        { envWith (.failure .other) with txFails := true } stEmpty (coordLoc ⟨30, 31⟩)).2
      = stEmpty := by
  refine ⟨by decide, by decide⟩

/-- C3: the claim asserts that `forceFresh=false` resolution returns any
stored valid Coordinate — including latitude 0 — without a device fix.
`getLocation` does (first conjunct), but `getLocationWithFallback` guards
the fast path with the JS-truthiness check `saved && saved.lat && saved.lng`,
so a stored equator coordinate `{lat: 0, lng: 10}` is discarded and the
device-fix path runs, returning the fix `{lat: 5, lng: 6}` instead. -/
theorem getLocationWithFallback_drops_zero_latitude :
    (getLocation (envWith (.success 5 6)) ⟨some ⟨0, 10⟩, none⟩ {}).1
        = .ok (coordLoc ⟨0, 10⟩) ∧
    (getLocationWithFallback (envWith (.success 5 6)) ⟨some ⟨0, 10⟩, none⟩
        (getLocation (envWith (.success 5 6)) ⟨some ⟨0, 10⟩, none⟩) {}).1
        = .ok (coordLoc ⟨5, 6⟩) := by
  refine ⟨by decide, by decide⟩

/-- C2 counterexample: `getLocationWithFallback` reaches a successful live
device fix (`{lat: 5, lng: 6}`, forced fresh) and returns it, but issues no
`Store.put`: the state is unchanged and a subsequent `getUserLocation`
still yields `none`, contradicting the claim for this resolve entry
point. -/
theorem getLocationWithFallback_does_not_persist_fix :
    (getLocationWithFallback (envWith (.success 5 6)) stEmpty
        (getLocation (envWith (.success 5 6)) stEmpty)
        { forceFresh := true, throwOnError := true, timeout := 10000 }).1
      = .ok (coordLoc ⟨5, 6⟩) ∧
    (getLocationWithFallback (envWith (.success 5 6)) stEmpty
        (getLocation (envWith (.success 5 6)) stEmpty)
        { forceFresh := true, throwOnError := true, timeout := 10000 }).2
      = stEmpty ∧
    getUserLocation (envWith (.success 5 6))
        (getLocationWithFallback (envWith (.success 5 6)) stEmpty
          (getLocation (envWith (.success 5 6)) stEmpty)
          { forceFresh := true, throwOnError := true, timeout := 10000 }).2
      = .ok none := by
  refine ⟨by decide, by decide, by decide⟩

/-- C7 counterexample: the claim asserts that any primary-engine read error
makes `getUserLocation` fall back to localStorage.  With the engine open
but the read request erroring, and localStorage holding a saved coordinate
`{lat: 1, lng: 2}`, the code's `request.onerror` handler resolves `null`
directly: the localStorage value is never consulted. -/
theorem getUserLocation_readError_skips_fallback :
    getUserLocation { envWith (.failure .other) with readRequestFails := true }
        ⟨some ⟨3, 4⟩, some (.json (coordLoc ⟨1, 2⟩))⟩
      = .ok none := by decide

/-- C9 counterexample: two `getDB()` calls issued before the first open
completes each pass the `if (dbInstance)` guard (still `null`) and each
start their own `indexedDB.open`: two underlying connections are created,
not one. -/
theorem getDB_concurrent_calls_open_twice :
    (runGetDB initDBConn [.call, .call, .openCompletes]).opensStarted = 2 := by decide

/-- C6: for every valid numeric Coordinate, `saveUserLocation` followed by
`getUserLocation` round-trips: the save resolves and the subsequent read
returns an equal coordinate, both when the primary IndexedDB path is fully
operational and when it is down and the localStorage fallback carries the
value. -/
theorem saveUserLocation_getUserLocation_roundtrip
    (env : Env) (st : StoreState) (c : Coord)
    (hla : |c.lat| ≤ 90) (hln : |c.lng| ≤ 180)
    (henv : envPrimaryOk env ∨ (envPrimaryDown env ∧ env.localStorageFails = false)) :
    (saveUserLocation env st (coordLoc c)).1 = .ok () ∧
    getUserLocation env (saveUserLocation env st (coordLoc c)).2
      = .ok (some (coordLoc c)) := by
  have hb : ¬(90 < |c.lat| ∨ 180 < |c.lng|) := by
    push_neg
    exact ⟨hla, hln⟩
  rcases henv with ⟨h1, h2, h3, h4, h5⟩ | ⟨hdown, hls⟩
  · constructor <;>
      simp [saveUserLocation, getUserLocation, coordLoc, looseNull, jsPlus,
        h1, h2, h3, h4, h5, hb]
  · rcases hdown with hd | hd <;> constructor <;>
      simp [saveUserLocation, getUserLocation, coordLoc, looseNull, jsPlus,
        hd, hls, hb]

/-- C6 witness: the round-trip at the concrete coordinate `{40, -74}` in a
fully operational environment. -/
theorem saveUserLocation_getUserLocation_roundtrip_witness :
    (saveUserLocation (envWith (.failure .other)) stEmpty (coordLoc ⟨40, -74⟩)).1
        = .ok () ∧
    getUserLocation (envWith (.failure .other))
        (saveUserLocation (envWith (.failure .other)) stEmpty (coordLoc ⟨40, -74⟩)).2
      = .ok (some (coordLoc ⟨40, -74⟩)) :=
  saveUserLocation_getUserLocation_roundtrip (envWith (.failure .other)) stEmpty ⟨40, -74⟩
    (by norm_num) (by norm_num) (Or.inl (by constructor <;> simp [envWith]))

/-- C5: with `throwOnError` and a forced fresh fix, `getLocation` rejects
with the kind matching the underlying failure: absence of the geolocation
capability gives the unsupported kind, and each platform error code is
mapped through `kindOfCode`, which is injective and never produces the
unsupported kind — so the five kinds are genuinely distinguished. -/
theorem getLocation_throw_error_kinds
    (env : Env) (st : StoreState) (opts : ResolveOptions)
    (hthrow : opts.throwOnError = true) (hfresh : opts.forceFresh = true) :
    (env.geolocationSupported = false →
      (getLocation env st opts).1 = .error (.locationError .unsupported)) ∧
    (∀ code, env.geolocationSupported = true → env.fix = .failure code →
      (getLocation env st opts).1 = .error (.locationError (kindOfCode code))) ∧
    (∀ c₁ c₂ : GeoErrorCode, kindOfCode c₁ = kindOfCode c₂ → c₁ = c₂) ∧
    (∀ c : GeoErrorCode, kindOfCode c ≠ .unsupported) := by
  refine ⟨?_, ?_, ?_, ?_⟩
  · intro hgeo
    simp [getLocation, hfresh, hthrow, hgeo]
  · intro code hgeo hfix
    simp [getLocation, hfresh, hthrow, hgeo, hfix]
  · intro c₁ c₂ hk
    cases c₁ <;> cases c₂ <;> simp [kindOfCode] at hk ⊢
  · intro c
    cases c <;> simp [kindOfCode]

/-- C5 witness: a permission-denied failure under
`{forceFresh: true, throwOnError: true}` rejects with the
permission-denied kind. -/
theorem getLocation_throw_error_kinds_witness :
    (getLocation { envWith (.failure .permissionDenied) with geolocationSupported := true }
        stEmpty { forceFresh := true, throwOnError := true }).1
      = .error (.locationError .permissionDenied) :=
  (getLocation_throw_error_kinds
      { envWith (.failure .permissionDenied) with geolocationSupported := true }
      stEmpty { forceFresh := true, throwOnError := true } rfl rfl).2.1
    .permissionDenied rfl rfl

/-- C4: with `throwOnError = false` neither resolver entry point ever
rejects — every storage state, host environment, and injected getter yields
an `ok` result — and against an empty store with a failing or absent
device-fix source both return exactly the configured fallback. -/
theorem resolver_never_throws
    (env : Env) (st : StoreState) (opts : ResolveOptions)
    (getL : ResolveOptions → Except LocFailure JSLoc × StoreState)
    (h : opts.throwOnError = false) :
    (∃ v, (getLocation env st opts).1 = .ok v) ∧
    (∃ v, (getLocationWithFallback env st getL opts).1 = .ok v) ∧
    ((env.geolocationSupported = false ∨ ∃ code, env.fix = .failure code) →
      (getLocation env stEmpty opts).1 = .ok (coordLoc opts.fallback) ∧
      (getLocationWithFallback env stEmpty (getLocation env stEmpty) opts).1
        = .ok (coordLoc opts.fallback)) := by
  refine ⟨?_, ?_, ?_⟩
  · unfold getLocation
    cases hff : opts.forceFresh <;>
      cases hfix : env.fix <;>
        cases hgeo : env.geolocationSupported <;>
          rcases hget : getUserLocation env st with e | (_ | s) <;>
            simp [h, hff, hfix, hgeo, hget]
  · unfold getLocationWithFallback getCurrentLocationGPS
    cases hff : opts.forceFresh <;>
      cases hfix : env.fix <;>
        cases hgeo : env.geolocationSupported <;>
          rcases hgl : getL ⟨false, opts.fallback, opts.timeout, false⟩ with ⟨e | s, st₁⟩ <;>
            simp [h, hff, hfix, hgeo, hgl] <;>
              by_cases hsv : savedOk s = true <;> simp [hsv]
  · intro hfail
    have hempty : getUserLocation env stEmpty = .ok none := by
      unfold getUserLocation stEmpty
      cases hs : env.indexedDBSupported <;> cases ho : env.openFails <;>
        cases hr : env.readRequestFails <;> simp [hs, ho, hr]
    have hloc : ∀ o : ResolveOptions, o.throwOnError = false →
        getLocation env stEmpty o = (.ok (coordLoc o.fallback), stEmpty) := by
      intro o ho
      unfold getLocation
      rcases hfail with hgeo | ⟨code, hfix⟩
      · cases hff : o.forceFresh <;> simp [ho, hff, hgeo, hempty]
      · cases hff : o.forceFresh <;> cases hgeo : env.geolocationSupported <;>
          simp [ho, hff, hgeo, hfix, hempty]
    refine ⟨by rw [hloc opts h], ?_⟩
    unfold getLocationWithFallback getCurrentLocationGPS
    cases hff : opts.forceFresh
    · rw [hloc ⟨false, opts.fallback, opts.timeout, false⟩ rfl]
      by_cases hsv : savedOk (coordLoc opts.fallback) = true
      · simp [hff, hsv]
      · rcases hfail with hgeo | ⟨code, hfix⟩
        · simp [hff, hsv, hgeo, h]
        · cases hgeo : env.geolocationSupported <;> simp [hff, hsv, hgeo, hfix, h]
    · rcases hfail with hgeo | ⟨code, hfix⟩
      · simp [hff, hgeo, h]
      · cases hgeo : env.geolocationSupported <;> simp [hff, hgeo, hfix, h]

/-- C4 witness: against the empty store with a position-unavailable device
failure and `throwOnError = false`, `getLocation` resolves (never rejects)
and returns exactly the Cairo default fallback. -/
theorem resolver_never_throws_witness :
    (∃ v, (getLocation (envWith (.failure .positionUnavailable)) stEmpty {}).1 = .ok v) ∧
    (getLocation (envWith (.failure .positionUnavailable)) stEmpty {}).1
      = .ok (coordLoc ⟨30033/1000, 31233/1000⟩) :=
  ⟨(resolver_never_throws (envWith (.failure .positionUnavailable)) stEmpty {}
      (getLocation (envWith (.failure .positionUnavailable)) stEmpty) rfl).1,
   ((resolver_never_throws (envWith (.failure .positionUnavailable)) stEmpty {}
      (getLocation (envWith (.failure .positionUnavailable)) stEmpty) rfl).2.2
      (Or.inr ⟨.positionUnavailable, rfl⟩)).1⟩

/-- C2 (amended): on a successful live device fix, `getLocation` — but not
`getLocationWithFallback`, which returns the fix without persisting it —
issues the non-blocking `saveUserLocation` of the fixed coordinate and
returns that coordinate; the resolved result does not depend on the save's
outcome, and when the primary engine is operational and the fix is in
range, a subsequent `getUserLocation` reflects the new coordinate. -/
theorem getLocation_liveFix_persists
    (env : Env) (st : StoreState) (opts : ResolveOptions) (la ln : ℚ)
    (hgeo : env.geolocationSupported = true) (hfix : env.fix = .success la ln)
    (hpath : opts.forceFresh = true ∨ getUserLocation env st = .ok none) :
    (getLocation env st opts).1 = .ok (coordLoc ⟨la, ln⟩) ∧
    (getLocation env st opts).2 = (saveUserLocation env st (coordLoc ⟨la, ln⟩)).2 ∧
    (envPrimaryOk env → |la| ≤ 90 → |ln| ≤ 180 →
      getUserLocation env (getLocation env st opts).2
        = .ok (some (coordLoc ⟨la, ln⟩))) := by
  have hrun : getLocation env st opts
      = (.ok (coordLoc ⟨la, ln⟩), (saveUserLocation env st (coordLoc ⟨la, ln⟩)).2) := by
    unfold getLocation
    rcases hpath with hff | hget
    · simp [hff, hgeo, hfix]
    · cases hff : opts.forceFresh <;> simp [hff, hgeo, hfix, hget]
  refine ⟨by rw [hrun], by rw [hrun], ?_⟩
  intro hok hla hln
  rw [hrun]
  have hb : ¬(90 < |la| ∨ 180 < |ln|) := by
    push_neg
    exact ⟨hla, hln⟩
  obtain ⟨h1, h2, h3, h4, h5⟩ := hok
  simp [saveUserLocation, getUserLocation, coordLoc, looseNull, jsPlus,
    h1, h2, h3, h4, h5, hb]

/-- C2 witness: a forced fresh fix `{lat: 5, lng: 6}` in a fully
operational environment is returned and, after the fire-and-forget save,
is what the store yields. -/
theorem getLocation_liveFix_persists_witness :
    (getLocation (envWith (.success 5 6)) stEmpty
        { forceFresh := true, throwOnError := true, timeout := 10000 }).1
      = .ok (coordLoc ⟨5, 6⟩) ∧
    getUserLocation (envWith (.success 5 6))
        (getLocation (envWith (.success 5 6)) stEmpty
          { forceFresh := true, throwOnError := true, timeout := 10000 }).2
      = .ok (some (coordLoc ⟨5, 6⟩)) := by
  have h := getLocation_liveFix_persists (envWith (.success 5 6)) stEmpty
    { forceFresh := true, throwOnError := true, timeout := 10000 } 5 6 rfl rfl (Or.inl rfl)
  exact ⟨h.1, h.2.2 (by constructor <;> simp [envWith]) (by norm_num) (by norm_num)⟩

/-- C7 (amended): `getUserLocation` returns `none` on an empty store; it
consults the localStorage fallback only when opening the primary engine
fails (returning the stored value, or `none` when the cell is empty); a
read-request error on an open engine yields `none` directly without
consulting the fallback; and the only way the operation rejects is
malformed JSON in the localStorage cell on the fallback path. -/
theorem getUserLocation_degrades (env : Env) (st : StoreState) :
    (envPrimaryOk env → st.idb = none → getUserLocation env st = .ok none) ∧
    (envPrimaryDown env → st.ls = none → getUserLocation env st = .ok none) ∧
    (envPrimaryDown env → ∀ l, st.ls = some (.json l) →
      getUserLocation env st = .ok (some l)) ∧
    (env.indexedDBSupported = true → env.openFails = false →
      env.readRequestFails = true → getUserLocation env st = .ok none) ∧
    (∀ e, getUserLocation env st = .error e →
      envPrimaryDown env ∧ st.ls = some .malformed) := by
  refine ⟨?_, ?_, ?_, ?_, ?_⟩
  · rintro ⟨h1, h2, _, _, h5⟩ hidb
    simp [getUserLocation, h1, h2, h5, hidb]
  · rintro hdown hls
    rcases hdown with hd | hd <;> simp [getUserLocation, hd, hls]
  · rintro hdown l hls
    rcases hdown with hd | hd <;> simp [getUserLocation, hd, hls]
  · intro h1 h2 hr
    simp [getUserLocation, h1, h2, hr]
  · intro e herr
    unfold getUserLocation at herr
    by_cases hd : (¬env.indexedDBSupported ∨ env.openFails : Prop)
    · rw [if_pos hd] at herr
      refine ⟨?_, ?_⟩
      · rcases hd with hd | hd
        · exact Or.inl (by simpa using hd)
        · exact Or.inr (by simpa using hd)
      · rcases hls : st.ls with _ | (l | _) <;> simp [hls] at herr ⊢
    · rw [if_neg hd] at herr
      by_cases hr : env.readRequestFails = true
      · simp [hr] at herr
      · simp [hr] at herr
        rcases hidb : st.idb with _ | c <;> simp [hidb] at herr

/-- C7 witness: on the empty store with a fully operational engine, the
read returns `none` as a normal outcome. -/
theorem getUserLocation_degrades_witness :
    getUserLocation (envWith (.failure .other)) stEmpty = .ok none :=
  (getUserLocation_degrades (envWith (.failure .other)) stEmpty).1
    (by constructor <;> simp [envWith]) rfl

/-- The `dbInstance == null` guard stays `null` across calls, so each of
`n` concurrent calls before the first completion adds one started open. -/
theorem runGetDB_replicate_call (n : ℕ) (s : DBConnState) (h : s.dbInstance = none) :
    (runGetDB s (List.replicate n .call)).opensStarted = s.opensStarted + n := by
  induction n generalizing s with
  | zero => simp [runGetDB]
  | succ n ih =>
    rw [List.replicate_succ]
    have hstep : getDBStep s .call = { s with opensStarted := s.opensStarted + 1 } := by
      simp [getDBStep, h]
    show (runGetDB (getDBStep s .call) (List.replicate n .call)).opensStarted = _
    rw [hstep, ih { s with opensStarted := s.opensStarted + 1 } (by simp [h])]
    show s.opensStarted + 1 + n = s.opensStarted + (n + 1)
    omega

/-- C9 (amended): `getDB` coalesces only sequentially: once an open has
completed and the connection is cached, a further call returns it and
starts no new open; but each of `n` concurrent calls issued before the
first open completes starts its own underlying open, creating `n`
connections rather than one. -/
theorem getDB_coalesces_only_after_completion
    (s : DBConnState) (d : ℕ) (n : ℕ) (h : s.dbInstance = some d) :
    getDBStep s .call = s ∧
    (runGetDB initDBConn (List.replicate n .call)).opensStarted = n := by
  refine ⟨by simp [getDBStep, h], ?_⟩
  rw [runGetDB_replicate_call n initDBConn rfl]
  simp [initDBConn]

/-- C9 witness: after a completed open (cached connection id 0), a new call
changes nothing, and three concurrent pre-completion calls start three
opens. -/
theorem getDB_coalesces_only_after_completion_witness :
    getDBStep ⟨some 0, 1⟩ .call = (⟨some 0, 1⟩ : DBConnState) ∧
    (runGetDB initDBConn (List.replicate 3 .call)).opensStarted = 3 :=
  getDB_coalesces_only_after_completion ⟨some 0, 1⟩ 0 3 rfl

/-- A formatted coordinate string never collides with the invalid-location
sentinel. -/
theorem latHeaderNe (s : String) : "Lat: " ++ s ≠ "Invalid location" := by
  intro hcontra
  have hdata := congrArg String.data hcontra
  simp [String.data_append] at hdata

/-- A location accepted by `isValidLocation` is an object whose fields are
non-nullish, coerce to numbers, and lie within Earth's bounds. -/
theorem isValidLocation_obj_shape (location : JSLoc)
    (h : isValidLocation location = true) :
    ∃ lat lng la ln, location = .obj lat lng ∧
      jsPlus lat = some la ∧ jsPlus lng = some ln ∧
      looseNull lat = false ∧ looseNull lng = false ∧
      -90 ≤ la ∧ la ≤ 90 ∧ -180 ≤ ln ∧ ln ≤ 180 := by
  cases location with
  | null => simp [isValidLocation] at h
  | undefined => simp [isValidLocation] at h
  | nonObject => simp [isValidLocation] at h
  | obj lat lng =>
    by_cases hn : (looseNull lat || looseNull lng) = true
    · simp [isValidLocation, hn] at h
    · simp only [Bool.or_eq_true, not_or, Bool.not_eq_true] at hn
      rcases hla : jsPlus lat with _ | la <;> rcases hln : jsPlus lng with _ | ln <;>
        simp [isValidLocation, hla, hln, hn.1, hn.2] at h
      exact ⟨lat, lng, la, ln, rfl, hla, hln, hn.1, hn.2,
        h.1, h.2.1, h.2.2.1, h.2.2.2⟩

/-- C10: `formatLocation` returns the `'Invalid location'` sentinel exactly
when `isValidLocation` rejects the input, and otherwise renders the
numerically coerced coordinates through `toFixed` at the requested
precision; `isValidLocation` accepts string-typed fields whose numeric
coercion is in range, and rejects null locations, missing fields, NaN
coercions, and out-of-range numbers. -/
theorem formatLocation_spec (location : JSLoc) (p : ℕ) :
    (formatLocation location p = "Invalid location" ↔
      isValidLocation location = false) ∧
    (∀ lat lng la ln, location = .obj lat lng →
      jsPlus lat = some la → jsPlus lng = some ln →
      isValidLocation location = true →
      formatLocation location p
        = "Lat: " ++ toFixed la p ++ ", Lng: " ++ toFixed ln p) ∧
    (∀ (cla cln : ℚ) (nea neb : Bool),
      -90 ≤ cla → cla ≤ 90 → -180 ≤ cln → cln ≤ 180 →
      isValidLocation (.obj (.str (some cla) nea) (.str (some cln) neb)) = true) ∧
    isValidLocation .null = false ∧
    (∀ v, isValidLocation (.obj v .undefined) = false) ∧
    (∀ v, isValidLocation (.obj .nan v) = false) ∧
    (∀ la ln : ℚ, isValidLocation (.obj (.num la) (.num ln)) = true ↔
      (-90 ≤ la ∧ la ≤ 90 ∧ -180 ≤ ln ∧ ln ≤ 180)) := by
  have hfmt : ∀ lat lng la ln, location = .obj lat lng →
      jsPlus lat = some la → jsPlus lng = some ln →
      isValidLocation location = true →
      formatLocation location p
        = "Lat: " ++ toFixed la p ++ ", Lng: " ++ toFixed ln p := by
    rintro lat lng la ln rfl hla hln hv
    simp [formatLocation, hv, hla, hln]
  refine ⟨?_, hfmt, ?_, by decide, ?_, ?_, ?_⟩
  · cases hv : isValidLocation location
    · simp [formatLocation, hv]
    · obtain ⟨lat, lng, la, ln, rfl, hla, hln, -, -, -, -, -, -⟩ :=
        isValidLocation_obj_shape location hv
      rw [hfmt lat lng la ln rfl hla hln hv]
      simp only [Bool.true_eq_false, iff_false]
      intro hcontra
      rw [String.append_assoc, String.append_assoc] at hcontra
      exact latHeaderNe _ hcontra
  · intro cla cln nea neb h1 h2 h3 h4
    have hc : ¬(cla < -90 ∨ 90 < cla ∨ cln < -180 ∨ 180 < cln) := by
      push_neg
      exact ⟨h1, h2, h3, h4⟩
    simp [isValidLocation, looseNull, jsPlus, hc]
  · intro v
    simp [isValidLocation, looseNull]
  · intro v
    cases v <;> simp [isValidLocation, looseNull, jsPlus]
  · intro la ln
    constructor
    · intro hv
      obtain ⟨lat, lng, la', ln', heq, hla, hln, -, -, hb1, hb2, hb3, hb4⟩ :=
        isValidLocation_obj_shape _ hv
      obtain ⟨rfl, rfl⟩ : JSVal.num la = lat ∧ JSVal.num ln = lng := by
        cases heq
        exact ⟨rfl, rfl⟩
      simp [jsPlus] at hla hln
      subst hla
      subst hln
      exact ⟨hb1, hb2, hb3, hb4⟩
    · rintro ⟨h1, h2, h3, h4⟩
      have hc : ¬(la < -90 ∨ 90 < la ∨ ln < -180 ∨ 180 < ln) := by
        push_neg
        exact ⟨h1, h2, h3, h4⟩
      simp [isValidLocation, looseNull, jsPlus, hc]

/-- C10 witness: a concrete valid coordinate `{lat: 30, lng: 31}` passes
validation and formats through `toFixed` at precision 2. -/
theorem formatLocation_spec_witness :
    isValidLocation (.obj (.num 30) (.num 31)) = true ∧
    formatLocation (.obj (.num 30) (.num 31)) 2
      = "Lat: " ++ toFixed 30 2 ++ ", Lng: " ++ toFixed 31 2 :=
  ⟨by decide,
   (formatLocation_spec (.obj (.num 30) (.num 31)) 2).2.1
     (.num 30) (.num 31) 30 31 rfl rfl rfl (by decide)⟩

end MapLocation
